import Mathlib

/-!
Shallow embedding of `src/recipe_app_backend/src/api/main.py`, the single
source file of the recipe-explorer service: the in-memory data model
(`Ingredient`, `Recipe`, `PaginatedRecipesResponse`), the seed catalog, the
case-insensitive query matcher `_match_query`, the paginated list handler
`list_recipes` and the keyed lookup handler `get_recipe`.

Modelling conventions:
- Python strings are Lean `String`s; `str.lower()` is modelled character-wise
  with `Char.toLower` (ASCII case mapping; all matched catalog content — titles
  and tags — is ASCII).
- Python's substring test `needle in hay` is `pyIn`, a direct executable
  contiguous-sublist search; `"" in s` is `true`, as in Python.
- `uuid.uuid4()` draws in `_mk_id` are modelled by an ambient id supplier
  `ids : Nat → String`: the k-th seed recipe receives `ids k`. Theorems that
  need the uuid freshness guarantee take injectivity of `ids` on the 11 seed
  indices as a hypothesis.
- The Python `dict` built by `{r.id: r for r in RECIPES}` is an ordered
  key-value list with last-writer-wins insertion (`dictInsert`) and first-match
  lookup (`dictGet`); for a dict these coincide with Python semantics because
  insertion keeps keys unique.
- The 404 raised by `get_recipe` is `Except.error 404`. A pydantic model
  instance is always truthy, so `if not recipe:` fires exactly on `None`.
-/

/-- `Ingredient` pydantic model: a name with an optional quantity string. -/
structure Ingredient where
  name : String
  quantity : Option String
deriving Repr, DecidableEq

/-- `Recipe` pydantic model: details, ingredients, steps and metadata. -/
structure Recipe where
  id : String
  title : String
  description : String
  image_url : Option String
  ingredients : List Ingredient
  steps : List String
  total_time_minutes : Nat
  servings : Nat
  tags : List String
deriving Repr, DecidableEq, Inhabited

/-- `PaginatedRecipesResponse` pydantic model: one page of recipes plus
pagination metadata. -/
structure PaginatedRecipesResponse where
  items : List Recipe
  total : Nat
  page : Nat
  page_size : Nat
deriving Repr, DecidableEq

/-- Does `pre` lead the list `l` (match it element-wise from the front)? -/
def leadsWith : List Char → List Char → Bool
  | [], _ => true
  | _ :: _, [] => false
  | a :: asTail, b :: bs => a == b && leadsWith asTail bs

/-- Contiguous-substring search on character lists: does `needle` occur
inside `hay`? Mirrors Python's `needle in hay` on strings (an empty needle
always occurs). -/
def hasSub (needle : List Char) : List Char → Bool
  | [] => needle.isEmpty
  | c :: t => leadsWith needle (c :: t) || hasSub needle t

/-- Python `needle in hay` on strings. -/
def pyIn (needle hay : String) : Bool :=
  hasSub needle.toList hay.toList

/-- Python `s.lower()`: character-wise ASCII lowercasing. -/
def lowerStr (s : String) : String :=
  String.mk (s.toList.map Char.toLower)

/-- `_match_query(recipe, q)`: case-insensitive substring match on title and
tags. Returns `true` on a title hit, else scans the tags. -/
def _match_query (recipe : Recipe) (q : String) : Bool :=
  let ql := lowerStr q
  if pyIn ql (lowerStr recipe.title) then true
  else recipe.tags.any (fun tag => pyIn ql (lowerStr tag))

/-- Dict insertion, last writer wins: overwrite the entry with key `k` when
present, otherwise append `(k, v)`. This is Python dict assignment on an
ordered key-value representation. -/
def dictInsert (d : List (String × Recipe)) (k : String) (v : Recipe) : List (String × Recipe) :=
  if d.any (fun p => p.1 == k) then d.map (fun p => if p.1 == k then (k, v) else p)
  else d ++ [(k, v)]

/-- Dict lookup `d.get(k)`: the value at the first (for a dict: only) entry
whose key is `k`, or `none`. -/
def dictGet (d : List (String × Recipe)) (k : String) : Option Recipe :=
  (d.find? (fun p => p.1 == k)).map Prod.snd

/-- `RECIPES_BY_ID = {r.id: r for r in RECIPES}`: the id-to-recipe dict built
at startup, parameterised by the catalog list. -/
def RECIPES_BY_ID (catalog : List Recipe) : List (String × Recipe) :=
  catalog.foldl (fun d r => dictInsert d r.id r) []

/-- `list_recipes(q, page, page_size)` handler: optional filtering by
`_match_query` (Python's `if q:` is false exactly on `None` and `""`),
then the slice `items[start:end]` with `start = (page - 1) * page_size`,
`end = start + page_size`. FastAPI validates `page ≥ 1` and
`1 ≤ page_size ≤ 100` before the handler runs, so on that domain Nat
subtraction agrees with Python. -/
def list_recipes (catalog : List Recipe) (q : Option String) (page page_size : Nat) :
    PaginatedRecipesResponse :=
  let items :=
    match q with
    | some s => if s = "" then catalog else catalog.filter (fun r => _match_query r s)
    | none => catalog
  let total := items.length
  let start := (page - 1) * page_size
  let paginated := (items.drop start).take page_size
  { items := paginated, total := total, page := page, page_size := page_size }

/-- `get_recipe(recipe_id)` handler: `RECIPES_BY_ID.get(recipe_id)`, raising
HTTP 404 when the lookup returns `None` (a pydantic `Recipe` instance is
always truthy, so `if not recipe:` tests only for `None`). -/
def get_recipe (catalog : List Recipe) (recipe_id : String) : Except Nat Recipe :=
  match dictGet (RECIPES_BY_ID catalog) recipe_id with
  | some r => Except.ok r
  | none => Except.error 404

/-- Modelled from the spec: "A recipe matches if the term is a substring of
the title, OR a substring of any one tag", with "Matching is case-insensitive
substring containment". Stated independently of `_match_query` for the
refinement claim C1. -/
def matchesSpec (r : Recipe) (q : String) : Bool :=
  pyIn (lowerStr q) (lowerStr r.title) || r.tags.any (fun tag => pyIn (lowerStr q) (lowerStr tag))

/-- `_seed_recipes()`: the fixed 11-recipe demo catalog, in construction
order. The `_mk_id()` (i.e. `uuid.uuid4()`) draw of the k-th entry is the
ambient supplier value `ids k`. -/
def _seed_recipes (ids : Nat → String) : List Recipe :=
  [ { id := ids 0
    , title := "Classic Margherita Pizza"
    , description := "A simple pizza topped with fresh tomatoes, mozzarella, and basil."
    , image_url := some "https://images.unsplash.com/photo-1548365328-8b0b1a07e2fd?q=80&w=1200&auto=format&fit=crop"
    , ingredients :=
        [ { name := "Pizza dough", quantity := some "1 ball" }
        , { name := "Tomato sauce", quantity := some "1/2 cup" }
        , { name := "Fresh mozzarella", quantity := some "8 oz" }
        , { name := "Fresh basil leaves", quantity := some "Handful" }
        , { name := "Olive oil", quantity := some "1 tbsp" } ]
    , steps :=
        [ "Preheat oven to 500°F (260°C)."
        , "Stretch the dough on a floured surface."
        , "Spread tomato sauce, add mozzarella slices, drizzle olive oil."
        , "Bake 8–10 minutes until crust is crisp."
        , "Top with basil and serve hot." ]
    , total_time_minutes := 25
    , servings := 2
    , tags := ["italian", "vegetarian", "pizza", "quick"] }
  , { id := ids 1
    , title := "Spicy Thai Basil Chicken"
    , description := "Savory and spicy stir-fried chicken with Thai basil."
    , image_url := some "https://images.unsplash.com/photo-1604908554063-f3eccb6b4b91?q=80&w=1200&auto=format&fit=crop"
    , ingredients :=
        [ { name := "Chicken thighs", quantity := some "1 lb, chopped" }
        , { name := "Garlic", quantity := some "4 cloves, minced" }
        , { name := "Red chilies", quantity := some "2, sliced" }
        , { name := "Oyster sauce", quantity := some "2 tbsp" }
        , { name := "Fish sauce", quantity := some "1 tbsp" }
        , { name := "Thai basil", quantity := some "1 cup" } ]
    , steps :=
        [ "Heat oil in a wok over high heat."
        , "Stir-fry garlic and chilies until fragrant."
        , "Add chicken and cook through."
        , "Stir in sauces and basil just before serving." ]
    , total_time_minutes := 20
    , servings := 3
    , tags := ["thai", "spicy", "stir-fry", "chicken", "quick"] }
  , { id := ids 2
    , title := "Blueberry Lemon Muffins"
    , description := "Moist muffins bursting with blueberries and bright lemon zest."
    , image_url := some "https://images.unsplash.com/photo-1519681393784-d120267933ba?q=80&w=1200&auto=format&fit=crop"
    , ingredients :=
        [ { name := "All-purpose flour", quantity := some "2 cups" }
        , { name := "Sugar", quantity := some "3/4 cup" }
        , { name := "Baking powder", quantity := some "2 tsp" }
        , { name := "Milk", quantity := some "3/4 cup" }
        , { name := "Egg", quantity := some "1" }
        , { name := "Blueberries", quantity := some "1 1/2 cups" }
        , { name := "Lemon zest", quantity := some "1 tbsp" } ]
    , steps :=
        [ "Preheat oven to 375°F (190°C)."
        , "Whisk dry ingredients; combine wet ingredients."
        , "Fold wet into dry, add blueberries and lemon zest."
        , "Fill muffin tin and bake 18–22 minutes." ]
    , total_time_minutes := 35
    , servings := 12
    , tags := ["baking", "dessert", "blueberry", "breakfast"] }
  , { id := ids 3
    , title := "Creamy Tomato Basil Soup"
    , description := "Comforting soup made with tomatoes, cream, and fresh basil."
    , image_url := some "https://images.unsplash.com/photo-1551183053-bf91a1d81141?q=80&w=1200&auto=format&fit=crop"
    , ingredients :=
        [ { name := "Canned tomatoes", quantity := some "28 oz" }
        , { name := "Onion", quantity := some "1, chopped" }
        , { name := "Garlic", quantity := some "3 cloves" }
        , { name := "Heavy cream", quantity := some "1/2 cup" }
        , { name := "Fresh basil", quantity := some "1/2 cup" } ]
    , steps :=
        [ "Sauté onion and garlic until soft."
        , "Add tomatoes and simmer 15 minutes."
        , "Blend smooth, stir in cream and basil."
        , "Season and serve warm." ]
    , total_time_minutes := 30
    , servings := 4
    , tags := ["soup", "vegetarian", "comfort"] }
  , { id := ids 4
    , title := "Grilled Salmon with Lemon Dill"
    , description := "Flaky salmon fillets grilled with fresh lemon and dill."
    , image_url := some "https://images.unsplash.com/photo-1617191518005-c13b39d3f5d3?q=80&w=1200&auto=format&fit=crop"
    , ingredients :=
        [ { name := "Salmon fillets", quantity := some "4" }
        , { name := "Lemon", quantity := some "1, sliced" }
        , { name := "Fresh dill", quantity := some "2 tbsp" }
        , { name := "Olive oil", quantity := some "1 tbsp" } ]
    , steps :=
        [ "Preheat grill to medium-high."
        , "Brush salmon with oil, season, top with lemon and dill."
        , "Grill 4–5 minutes per side." ]
    , total_time_minutes := 18
    , servings := 4
    , tags := ["seafood", "healthy", "gluten-free"] }
  , { id := ids 5
    , title := "Veggie Buddha Bowl"
    , description := "Nourishing bowl with roasted veggies, grains, and tahini dressing."
    , image_url := some "https://images.unsplash.com/photo-1512621776951-a57141f2eefd?q=80&w=1200&auto=format&fit=crop"
    , ingredients :=
        [ { name := "Quinoa", quantity := some "1 cup" }
        , { name := "Sweet potato", quantity := some "1, cubed" }
        , { name := "Chickpeas", quantity := some "1 can, drained" }
        , { name := "Spinach", quantity := some "2 cups" }
        , { name := "Tahini", quantity := some "2 tbsp" } ]
    , steps :=
        [ "Roast sweet potato and chickpeas at 400°F (205°C) until crisp."
        , "Cook quinoa per package."
        , "Assemble with spinach and drizzle tahini dressing." ]
    , total_time_minutes := 35
    , servings := 2
    , tags := ["vegan", "bowl", "healthy", "gluten-free"] }
  , { id := ids 6
    , title := "Garlic Butter Shrimp Pasta"
    , description := "Rich and garlicky shrimp tossed with al dente pasta."
    , image_url := some "https://images.unsplash.com/photo-1473093295043-cdd812d0e601?q=80&w=1200&auto=format&fit=crop"
    , ingredients :=
        [ { name := "Spaghetti", quantity := some "12 oz" }
        , { name := "Shrimp", quantity := some "1 lb, peeled" }
        , { name := "Butter", quantity := some "4 tbsp" }
        , { name := "Garlic", quantity := some "4 cloves, minced" }
        , { name := "Parsley", quantity := some "2 tbsp" } ]
    , steps :=
        [ "Cook pasta until al dente."
        , "Sauté garlic in butter, add shrimp and cook until pink."
        , "Toss with pasta and parsley; season to taste." ]
    , total_time_minutes := 25
    , servings := 4
    , tags := ["pasta", "seafood", "comfort"] }
  , { id := ids 7
    , title := "Hearty Beef Chili"
    , description := "Slow-simmered chili with beans and spices."
    , image_url := some "https://images.unsplash.com/photo-1481931715705-36f6e3a82b5b?q=80&w=1200&auto=format&fit=crop"
    , ingredients :=
        [ { name := "Ground beef", quantity := some "1 lb" }
        , { name := "Kidney beans", quantity := some "1 can" }
        , { name := "Tomato sauce", quantity := some "1 can" }
        , { name := "Chili powder", quantity := some "2 tbsp" }
        , { name := "Onion", quantity := some "1, diced" } ]
    , steps :=
        [ "Brown beef with onions."
        , "Add beans, sauce, and spices."
        , "Simmer 30–45 minutes, stirring occasionally." ]
    , total_time_minutes := 60
    , servings := 6
    , tags := ["beef", "stew", "spicy", "comfort"] }
  , { id := ids 8
    , title := "Avocado Toast with Poached Egg"
    , description := "Simple and delicious breakfast with creamy avocado and a runny egg."
    , image_url := some "https://images.unsplash.com/photo-1525351484163-7529414344d8?q=80&w=1200&auto=format&fit=crop"
    , ingredients :=
        [ { name := "Sourdough bread", quantity := some "2 slices" }
        , { name := "Avocado", quantity := some "1, mashed" }
        , { name := "Eggs", quantity := some "2, poached" }
        , { name := "Chili flakes", quantity := some "Pinch" } ]
    , steps :=
        [ "Toast bread and spread with mashed avocado."
        , "Top with poached eggs and chili flakes."
        , "Season with salt and pepper." ]
    , total_time_minutes := 10
    , servings := 1
    , tags := ["breakfast", "quick", "vegetarian"] }
  , { id := ids 9
    , title := "Mango Coconut Chia Pudding"
    , description := "Tropical chia pudding with mango puree and coconut milk."
    , image_url := some "https://images.unsplash.com/photo-1511914265872-c40672604a66?q=80&w=1200&auto=format&fit=crop"
    , ingredients :=
        [ { name := "Chia seeds", quantity := some "1/4 cup" }
        , { name := "Coconut milk", quantity := some "1 cup" }
        , { name := "Mango", quantity := some "1, pureed" }
        , { name := "Honey", quantity := some "1 tbsp" } ]
    , steps :=
        [ "Mix chia seeds with coconut milk and honey."
        , "Chill for 2 hours until set."
        , "Top with mango puree and serve." ]
    , total_time_minutes := 10
    , servings := 2
    , tags := ["dessert", "vegan", "tropical", "no-bake"] }
  , { id := ids 10
    , title := "Roasted Herb Chicken"
    , description := "Juicy whole roasted chicken with fragrant herbs."
    , image_url := some "https://images.unsplash.com/photo-1544025162-d76694265947?q=80&w=1200&auto=format&fit=crop"
    , ingredients :=
        [ { name := "Whole chicken", quantity := some "1" }
        , { name := "Butter", quantity := some "3 tbsp" }
        , { name := "Mixed herbs", quantity := some "2 tbsp" }
        , { name := "Lemon", quantity := some "1" } ]
    , steps :=
        [ "Preheat oven to 425°F (220°C)."
        , "Rub chicken with butter and herbs."
        , "Roast 60–75 minutes until internal temp is 165°F (74°C)."
        , "Rest before carving." ]
    , total_time_minutes := 90
    , servings := 6
    , tags := ["chicken", "roast", "family"] } ]

/-- `RECIPES = _seed_recipes()`: the module-level catalog, parameterised by
the id supplier standing for the process's `uuid.uuid4()` draws. -/
def RECIPES (ids : Nat → String) : List Recipe :=
  _seed_recipes ids

/-- One request step of the (read-only) server: the handler reads the module
state (the catalog) and writes nothing back, so the step returns the state it
was given together with the response. -/
def listStep (st : List Recipe) (q : Option String) (page ps : Nat) :
    List Recipe × PaginatedRecipesResponse :=
  (st, list_recipes st q page ps)

/-- Concrete id supplier for witnesses: the k-th draw is the one-letter
string at code point `65 + k` (distinct for the 11 seed indices). -/
def exIds : Nat → String :=
  fun n => String.mk [Char.ofNat (65 + n)]

/-- Concrete recipe used as witness input. -/
def rA : Recipe :=
  { id := "a1", title := "Apple Pie", description := "sweet", image_url := none
  , ingredients := [], steps := [], total_time_minutes := 5, servings := 1
  , tags := ["dessert"] }

/-- Concrete recipe used as witness input: same title and tags as `rA`,
different description, ingredients and metadata. -/
def rB : Recipe :=
  { id := "b2", title := "Apple Pie", description := "with crumble"
  , image_url := some "http://img", ingredients := [{ name := "apple", quantity := some "2" }]
  , steps := ["bake"], total_time_minutes := 7, servings := 2, tags := ["dessert"] }

theorem match_query_eq_matchesSpec (r : Recipe) (q : String) :
    _match_query r q = matchesSpec r q := by
  unfold _match_query matchesSpec
  cases h : pyIn (lowerStr q) (lowerStr r.title) <;> simp [h]

theorem hasSub_nil_needle (l : List Char) : hasSub [] l = true := by
  cases l <;> simp [hasSub, leadsWith]

theorem recipes_map_id (ids : Nat → String) :
    (RECIPES ids).map Recipe.id = (List.range 11).map ids := rfl

theorem recipes_ids_nodup (ids : Nat → String)
    (hinj : ∀ i < 11, ∀ j < 11, ids i = ids j → i = j) :
    ((RECIPES ids).map Recipe.id).Nodup := by
  rw [recipes_map_id]
  refine List.Nodup.map_on ?_ (List.nodup_range 11)
  intro i hi j hj he
  exact hinj i (List.mem_range.mp hi) j (List.mem_range.mp hj) he

theorem foldl_dictInsert_eq (rs : List Recipe) :
    ∀ d : List (String × Recipe),
      (∀ r ∈ rs, ∀ p ∈ d, p.1 ≠ r.id) → (rs.map Recipe.id).Nodup →
      rs.foldl (fun acc r => dictInsert acc r.id r) d = d ++ rs.map (fun r => (r.id, r)) := by
  induction rs with
  | nil => intro d _ _; simp
  | cons a t ih =>
    intro d hdisj hnd
    rw [List.map_cons] at hnd
    obtain ⟨hain, hndt⟩ := List.nodup_cons.mp hnd
    have hno : d.any (fun p => p.1 == a.id) = false := by
      rw [List.any_eq_false]
      intro p hp
      simpa using hdisj a (List.mem_cons_self a t) p hp
    have hstep : dictInsert d a.id a = d ++ [(a.id, a)] := by
      unfold dictInsert
      rw [hno]
      simp
    have hdisj' : ∀ r ∈ t, ∀ p ∈ d ++ [(a.id, a)], p.1 ≠ r.id := by
      intro r hr p hp
      rcases List.mem_append.mp hp with h | h
      · exact hdisj r (List.mem_cons_of_mem a hr) p h
      · have hpa : p = (a.id, a) := by simpa using h
        subst hpa
        intro he
        have he' : a.id = r.id := he
        apply hain
        rw [he']
        exact List.mem_map_of_mem Recipe.id hr
    rw [List.foldl_cons, hstep, ih (d ++ [(a.id, a)]) hdisj' hndt, List.map_cons,
      List.append_assoc]
    rfl

theorem by_id_eq_map (catalog : List Recipe) (hnd : (catalog.map Recipe.id).Nodup) :
    RECIPES_BY_ID catalog = catalog.map (fun r => (r.id, r)) := by
  have h := foldl_dictInsert_eq catalog [] (by intro r _ p hp; cases hp) hnd
  simpa [RECIPES_BY_ID] using h

theorem dictGet_map_eq_find (catalog : List Recipe) (k : String) :
    dictGet (catalog.map (fun r => (r.id, r))) k = catalog.find? (fun x => x.id == k) := by
  induction catalog with
  | nil => rfl
  | cons a t ih =>
    unfold dictGet at ih ⊢
    rw [List.map_cons, List.find?_cons, List.find?_cons]
    cases h : (a.id == k) with
    | true => simp
    | false => simpa using ih

theorem dictGet_RECIPES_BY_ID (catalog : List Recipe)
    (hnd : (catalog.map Recipe.id).Nodup) (k : String) :
    dictGet (RECIPES_BY_ID catalog) k = catalog.find? (fun x => x.id == k) := by
  rw [by_id_eq_map catalog hnd, dictGet_map_eq_find]

theorem find_id_of_mem (catalog : List Recipe) (hnd : (catalog.map Recipe.id).Nodup)
    (r : Recipe) (hr : r ∈ catalog) :
    catalog.find? (fun x => x.id == r.id) = some r := by
  induction catalog with
  | nil => cases hr
  | cons a t ih =>
    rw [List.map_cons] at hnd
    obtain ⟨hain, hndt⟩ := List.nodup_cons.mp hnd
    rw [List.find?_cons]
    by_cases h : a.id = r.id
    · have har : a = r := by
        rcases List.mem_cons.mp hr with he | ht
        · exact he.symm
        · exact absurd (by rw [h]; exact List.mem_map_of_mem Recipe.id ht) hain
      simp [h, har]
    · have hrt : r ∈ t := by
        rcases List.mem_cons.mp hr with he | ht
        · exact absurd (by rw [he]) h
        · exact ht
      have hb : (a.id == r.id) = false := by simpa using h
      rw [hb]
      exact ih hndt hrt

theorem flatten_pages (S : Nat) :
    ∀ (k : Nat) (l : List Recipe), l.length ≤ k * S →
      ((List.range k).map (fun i => (l.drop (i * S)).take S)).flatten = l := by
  intro k
  induction k with
  | zero =>
    intro l hl
    have hnil : l = [] := List.eq_nil_of_length_eq_zero (Nat.le_zero.mp (by simpa using hl))
    subst hnil
    rfl
  | succ k ih =>
    intro l hl
    rw [List.range_succ_eq_map, List.map_cons, List.flatten_cons, List.map_map]
    have hrw : ((fun i => (l.drop (i * S)).take S) ∘ Nat.succ)
        = fun i => (((l.drop S).drop (i * S)).take S) := by
      funext i
      simp only [Function.comp_apply]
      rw [List.drop_drop]
      have hi : Nat.succ i * S = S + i * S := by
        rw [Nat.succ_mul, Nat.add_comm]
      rw [hi]
    have hlen : (l.drop S).length ≤ k * S := by
      rw [List.length_drop]
      refine Nat.sub_le_iff_le_add.mpr ?_
      rw [Nat.add_mul, Nat.one_mul] at hl
      exact hl
    rw [hrw, ih (l.drop S) hlen]
    simp

theorem sum_lengths_filter_nonempty (ls : List (List Recipe)) :
    ((ls.filter (fun pg => !pg.isEmpty)).map List.length).sum = (ls.map List.length).sum := by
  induction ls with
  | nil => rfl
  | cons h t ih =>
    cases h with
    | nil => simpa [List.filter_cons] using ih
    | cons a t' => simp [List.filter_cons, ih]

theorem list_recipes_page_slice (items : List Recipe) (S i : Nat) :
    (list_recipes items none (i + 1) S).items = (items.drop (i * S)).take S := by
  simp [list_recipes]

/-- C1: for every non-empty search term `q`, the List operation keeps exactly
the recipes whose title or some tag contains `q` case-insensitively, in
catalog order, before pagination (`total` counts that filtered set and the
returned page is a slice of it); and the matcher ignores description and
ingredients (recipes agreeing on title and tags match identically). -/
theorem list_filters_by_title_or_tag (catalog : List Recipe) (q : String) (hq : q ≠ "")
    (page ps : Nat) (r r' : Recipe) (ht : r.title = r'.title) (hg : r.tags = r'.tags) :
    (list_recipes catalog (some q) page ps).items
      = ((catalog.filter (fun x => matchesSpec x q)).drop ((page - 1) * ps)).take ps ∧
    (list_recipes catalog (some q) page ps).total
      = (catalog.filter (fun x => matchesSpec x q)).length ∧
    _match_query r q = _match_query r' q := by
  have hfil : catalog.filter (fun x => _match_query x q)
      = catalog.filter (fun x => matchesSpec x q) :=
    List.filter_congr (fun x _ => match_query_eq_matchesSpec x q)
  refine ⟨?_, ?_, ?_⟩
  · simp [list_recipes, hq, hfil]
  · simp [list_recipes, hq, hfil]
  · rw [match_query_eq_matchesSpec, match_query_eq_matchesSpec]
    unfold matchesSpec
    rw [ht, hg]

theorem list_filters_by_title_or_tag_witness :
    (("pie" : String) ≠ "") ∧
    ((list_recipes [rA, rB] (some "pie") 1 10).items
      = (([rA, rB].filter (fun x => matchesSpec x "pie")).drop ((1 - 1) * 10)).take 10 ∧
     (list_recipes [rA, rB] (some "pie") 1 10).total
      = ([rA, rB].filter (fun x => matchesSpec x "pie")).length ∧
     _match_query rA "pie" = _match_query rB "pie") :=
  ⟨by decide, list_filters_by_title_or_tag [rA, rB] "pie" (by decide) 1 10 rA rB rfl rfl⟩

/-- C2: for every item sequence, `page ≥ 1` and `page_size ∈ [1, 100]`,
pagination returns the clamped slice `items[(page-1)*page_size :
(page-1)*page_size + page_size]`, the returned `total` is the length of the
input sequence, and an out-of-range page yields an empty items list rather
than a failure. -/
theorem paginate_slices (items : List Recipe) (page ps : Nat)
    (_h1 : 1 ≤ page) (_h2 : 1 ≤ ps) (_h3 : ps ≤ 100) :
    (list_recipes items none page ps).items = (items.drop ((page - 1) * ps)).take ps ∧
    (list_recipes items none page ps).total = items.length ∧
    (items.length ≤ (page - 1) * ps → (list_recipes items none page ps).items = []) := by
  refine ⟨rfl, rfl, ?_⟩
  intro hout
  simp [list_recipes, List.drop_eq_nil_of_le hout]

theorem paginate_slices_witness :
    (1 ≤ 3 ∧ 1 ≤ 1 ∧ 1 ≤ 100) ∧
    ((list_recipes [rA] none 3 1).items = (([rA].drop ((3 - 1) * 1)).take 1) ∧
     (list_recipes [rA] none 3 1).total = [rA].length ∧
     ([rA].length ≤ (3 - 1) * 1 → (list_recipes [rA] none 3 1).items = [])) :=
  ⟨by decide, paginate_slices [rA] 3 1 (by decide) (by decide) (by decide)⟩

/-- C3: when the id supplier behind `uuid.uuid4()` yields distinct ids for
the 11 seed draws, Get-by-id returns the catalog recipe holding any catalog
member's id, signals 404 exactly when no catalog recipe carries the requested
id, and any error it signals is that 404. -/
theorem get_by_id_spec (ids : Nat → String)
    (hinj : ∀ i < 11, ∀ j < 11, ids i = ids j → i = j)
    (r : Recipe) (hr : r ∈ RECIPES ids) (rid : String) (e : Nat) :
    get_recipe (RECIPES ids) r.id = Except.ok r ∧
    (get_recipe (RECIPES ids) rid = Except.error 404 ↔ ∀ x ∈ RECIPES ids, x.id ≠ rid) ∧
    (get_recipe (RECIPES ids) rid = Except.error e → e = 404) := by
  have hnd := recipes_ids_nodup ids hinj
  refine ⟨?_, ?_, ?_⟩
  · unfold get_recipe
    rw [dictGet_RECIPES_BY_ID _ hnd, find_id_of_mem _ hnd r hr]
  · unfold get_recipe
    rw [dictGet_RECIPES_BY_ID _ hnd]
    cases hf : (RECIPES ids).find? (fun x => x.id == rid) with
    | some x =>
      constructor
      · intro hcontra
        cases hcontra
      · intro hall
        have hx := List.find?_some hf
        have hmem : x ∈ RECIPES ids := List.mem_of_find?_eq_some hf
        exact absurd (by simpa using hx) (hall x hmem)
    | none =>
      constructor
      · intro _ x hx
        have hne := List.find?_eq_none.mp hf x hx
        simpa using hne
      · intro _
        rfl
  · unfold get_recipe
    rw [dictGet_RECIPES_BY_ID _ hnd]
    cases hf : (RECIPES ids).find? (fun x => x.id == rid) with
    | some x =>
      intro hcontra
      cases hcontra
    | none =>
      intro he
      injection he with h
      exact h.symm

theorem get_by_id_spec_witness :
    (∀ i < 11, ∀ j < 11, exIds i = exIds j → i = j) ∧
    ((RECIPES exIds).headI ∈ RECIPES exIds) ∧
    (get_recipe (RECIPES exIds) (RECIPES exIds).headI.id = Except.ok (RECIPES exIds).headI ∧
     (get_recipe (RECIPES exIds) "nope" = Except.error 404 ↔
        ∀ x ∈ RECIPES exIds, x.id ≠ "nope") ∧
     (get_recipe (RECIPES exIds) "nope" = Except.error 404 → (404 : Nat) = 404)) :=
  ⟨by decide, by decide,
    get_by_id_spec exIds (by decide) (RECIPES exIds).headI (by decide) "nope" 404⟩

/-- C4: when the id supplier behind `uuid.uuid4()` yields distinct ids for
the 11 seed draws, the catalog's recipe ids are pairwise distinct, and the
startup id-to-recipe dict has exactly one entry per catalog recipe (it is the
per-recipe `(id, recipe)` list, so its size equals the catalog's). -/
theorem catalog_ids_unique (ids : Nat → String)
    (hinj : ∀ i < 11, ∀ j < 11, ids i = ids j → i = j) :
    ((RECIPES ids).map Recipe.id).Nodup ∧
    RECIPES_BY_ID (RECIPES ids) = (RECIPES ids).map (fun r => (r.id, r)) ∧
    (RECIPES_BY_ID (RECIPES ids)).length = (RECIPES ids).length := by
  have hnd := recipes_ids_nodup ids hinj
  refine ⟨hnd, by_id_eq_map _ hnd, ?_⟩
  rw [by_id_eq_map _ hnd, List.length_map]

theorem catalog_ids_unique_witness :
    (∀ i < 11, ∀ j < 11, exIds i = exIds j → i = j) ∧
    (((RECIPES exIds).map Recipe.id).Nodup ∧
     RECIPES_BY_ID (RECIPES exIds) = (RECIPES exIds).map (fun r => (r.id, r)) ∧
     (RECIPES_BY_ID (RECIPES exIds)).length = (RECIPES exIds).length) :=
  ⟨by decide, catalog_ids_unique exIds (by decide)⟩

/-- C5: with the term absent, the List operation filters nothing: the
response is identical to the one for the empty term, its page is the
corresponding slice of the full catalog, and its total is the catalog
size. -/
theorem list_no_term_unfiltered (catalog : List Recipe) (page ps : Nat) :
    list_recipes catalog none page ps = list_recipes catalog (some "") page ps ∧
    (list_recipes catalog none page ps).items = (catalog.drop ((page - 1) * ps)).take ps ∧
    (list_recipes catalog none page ps).total = catalog.length :=
  ⟨rfl, rfl, rfl⟩

/-- C6: the matcher is case-insensitive: terms with the same lowercasing
(in particular any two terms differing only in letter case) match exactly
the same recipes. -/
theorem match_query_case_insensitive (r : Recipe) (t t' : String)
    (h : lowerStr t = lowerStr t') :
    _match_query r t = _match_query r t' := by
  unfold _match_query
  rw [h]

theorem match_query_case_insensitive_witness :
    lowerStr "PIZZA" = lowerStr "pizza" ∧
    _match_query rA "PIZZA" = _match_query rA "pizza" :=
  ⟨by decide, match_query_case_insensitive rA "PIZZA" "pizza" (by decide)⟩

/-- C7: for any result set of size `N` and fixed `page_size = S` in
`[1, 100]`, the item slices of pages `1, 2, ...` (enough pages to cover `N`)
concatenate back to the whole set — each item appears exactly once, in
order — and the item counts of the non-empty pages sum to `N`. -/
theorem pagination_covers_once (items : List Recipe) (S k : Nat)
    (_hS1 : 1 ≤ S) (_hS2 : S ≤ 100) (hk : items.length ≤ k * S) :
    ((List.range k).map (fun i => (list_recipes items none (i + 1) S).items)).flatten
      = items ∧
    ((((List.range k).map (fun i => (list_recipes items none (i + 1) S).items)).filter
        (fun pg => !pg.isEmpty)).map List.length).sum = items.length := by
  have hpages : (List.range k).map (fun i => (list_recipes items none (i + 1) S).items)
      = (List.range k).map (fun i => (items.drop (i * S)).take S) := by
    simp only [list_recipes_page_slice]
  have hflat :
      ((List.range k).map (fun i => (list_recipes items none (i + 1) S).items)).flatten
        = items := by
    rw [hpages]
    exact flatten_pages S k items hk
  refine ⟨hflat, ?_⟩
  rw [sum_lengths_filter_nonempty, ← List.length_flatten, hflat]

theorem pagination_covers_once_witness :
    (1 ≤ 2 ∧ 2 ≤ 100 ∧ [rA, rB, rA].length ≤ 2 * 2) ∧
    (((List.range 2).map (fun i => (list_recipes [rA, rB, rA] none (i + 1) 2).items)).flatten
       = [rA, rB, rA] ∧
     ((((List.range 2).map
          (fun i => (list_recipes [rA, rB, rA] none (i + 1) 2).items)).filter
            (fun pg => !pg.isEmpty)).map List.length).sum = [rA, rB, rA].length) :=
  ⟨by decide,
    pagination_covers_once [rA, rB, rA] 2 2 (by decide) (by decide) (by decide)⟩

/-- C8: the List operation is deterministic and read-only: one request step
leaves the catalog state unchanged, and a second identical invocation on the
post-state produces the identical response. -/
theorem list_deterministic_read_only (st : List Recipe) (q : Option String) (page ps : Nat) :
    (listStep st q page ps).1 = st ∧
    (listStep ((listStep st q page ps).1) q page ps).2 = (listStep st q page ps).2 :=
  ⟨rfl, rfl⟩

/-- C9: on the 11-recipe seed catalog, searching "chicken" on page 1 with
page size 10 returns exactly "Spicy Thai Basil Chicken" and "Roasted Herb
Chicken" with total 2; and listing without a term on page 2 with page size 5
returns seed items 6 through 10 with total 11. -/
theorem seed_catalog_scenarios (ids : Nat → String) :
    (list_recipes (RECIPES ids) (some "chicken") 1 10).items.map Recipe.title
      = ["Spicy Thai Basil Chicken", "Roasted Herb Chicken"] ∧
    (list_recipes (RECIPES ids) (some "chicken") 1 10).total = 2 ∧
    (list_recipes (RECIPES ids) none 2 5).items.map Recipe.title
      = ["Veggie Buddha Bowl", "Garlic Butter Shrimp Pasta", "Hearty Beef Chili",
         "Avocado Toast with Poached Egg", "Mango Coconut Chia Pudding"] ∧
    (list_recipes (RECIPES ids) none 2 5).total = 11 :=
  ⟨rfl, rfl, rfl, rfl⟩

/-- C10: the matcher accepts the empty term on every recipe (the empty
string is a substring of every title), so the unfiltered listing for an
empty term comes only from the handler's truthiness guard, and any non-empty
term — a whitespace-only one included — is a real filter. -/
theorem empty_term_matcher_vs_guard (r : Recipe) (catalog : List Recipe) (page ps : Nat)
    (s : String) (hs : s ≠ "") :
    _match_query r "" = true ∧
    list_recipes catalog (some "") page ps = list_recipes catalog none page ps ∧
    (list_recipes catalog (some s) page ps).items
      = ((catalog.filter (fun x => _match_query x s)).drop ((page - 1) * ps)).take ps ∧
    (list_recipes catalog (some " ") page ps).total
      = (catalog.filter (fun x => _match_query x " ")).length := by
  have hws : (" " : String) ≠ "" := by decide
  refine ⟨?_, rfl, ?_, ?_⟩
  · have hpy : pyIn (lowerStr "") (lowerStr r.title) = true :=
      hasSub_nil_needle ((lowerStr r.title).toList)
    simp [_match_query, hpy]
  · simp [list_recipes, hs]
  · simp [list_recipes, hws]

theorem empty_term_matcher_vs_guard_witness :
    (("x" : String) ≠ "") ∧
    (_match_query rA "" = true ∧
     list_recipes [rA, rB] (some "") 1 10 = list_recipes [rA, rB] none 1 10 ∧
     (list_recipes [rA, rB] (some "x") 1 10).items
       = (([rA, rB].filter (fun x => _match_query x "x")).drop ((1 - 1) * 10)).take 10 ∧
     (list_recipes [rA, rB] (some " ") 1 10).total
       = ([rA, rB].filter (fun x => _match_query x " ")).length) :=
  ⟨by decide, empty_term_matcher_vs_guard rA [rA, rB] 1 10 "x" (by decide)⟩
